import Mathlib

/-!
Verification of the windowing core of this repository (bevy_window + bevy_winit).

The Rust sources are shallowly embedded: `f32`/`f64` values that only ever flow
through exact operations (comparison, max, division by a scale factor) are
modelled as exact values — `FloatVal` (a rational extended with infinities and
NaN) where infinities/NaN are reachable, plain `ℚ` elsewhere; machine integers
are `ℕ`/`ℤ` (no overflow is reachable in the verified paths); Rust panics are
modelled as `Except.error`.
-/

/-- Model of an `f32`/`f64` value for code paths where non-finite values are
reachable (`WindowResizeConstraints` uses `f32::INFINITY` as a default).
Only exact float operations occur in the embedded code (comparison and max),
so the model is exact. -/
inductive FloatVal
  | nan
  | negInf
  | fin (q : ℚ)
  | inf
  deriving DecidableEq, Repr

namespace FloatVal

/-- IEEE `<` on the float model: any comparison with NaN is false. -/
def lt : FloatVal → FloatVal → Bool
  | .nan, _ => false
  | _, .nan => false
  | .negInf, .negInf => false
  | .negInf, _ => true
  | _, .negInf => false
  | .fin a, .fin b => a < b
  | .fin _, .inf => true
  | .inf, _ => false

/-- IEEE `<=` on the float model: any comparison with NaN is false. -/
def le : FloatVal → FloatVal → Bool
  | .nan, _ => false
  | _, .nan => false
  | .negInf, _ => true
  | _, .negInf => false
  | .fin a, .fin b => a ≤ b
  | _, .inf => true
  | .inf, _ => false

/-- Rust `f32::max`: returns the other operand if one is NaN, otherwise the
larger operand. -/
def max (a b : FloatVal) : FloatVal :=
  match a, b with
  | .nan, b => b
  | a, .nan => a
  | a, b => if a.lt b then b else a

theorem lt_irrefl (a : FloatVal) : a.lt a = false := by
  cases a <;> simp [lt]

theorem max_one_not_nan (a : FloatVal) : a.max (.fin 1) ≠ .nan := by
  cases a <;> simp [max, lt] <;> split <;> simp

theorem one_le_max_one (a : FloatVal) : FloatVal.le (.fin 1) (a.max (.fin 1)) = true := by
  cases a <;> simp [max, lt, le]
  case fin q =>
    by_cases h : q < 1
    · simp [h, le]
    · simp [h, le]; linarith

theorem max_one_idem (a : FloatVal) : (a.max (.fin 1)).max (.fin 1) = a.max (.fin 1) := by
  cases a <;> simp [max, lt]
  case fin q =>
    by_cases h : q < 1
    · simp [h, max, lt]
    · simp [h, max, lt, h]

theorem lt_max_one {a b : FloatVal} (h : a.lt b = true) :
    a.lt (b.max (.fin 1)) = true := by
  cases b with
  | nan => cases a <;> simp [lt] at h
  | negInf => cases a <;> simp [lt] at h
  | inf => cases a <;> simp_all [lt, max]
  | fin q =>
    by_cases h1 : q < 1
    · cases a with
      | nan => simp [lt] at h
      | negInf => simp [max, lt, h1]
      | inf => simp [lt] at h
      | fin p =>
        simp [lt] at h
        simp only [max, lt, h1, if_true]
        simp [lt]
        linarith
    · cases a with
      | nan => simp [lt] at h
      | negInf => simp [max, lt, h1]
      | inf => simp [lt] at h
      | fin p =>
        simp [lt] at h
        simp [max, lt, h1, h]

end FloatVal

/-- Embeds `WindowResizeConstraints` (bevy_window/src/window.rs): min/max
width/height in logical pixels, stored as `f32` in the source. -/
structure WindowResizeConstraints where
  min_width : FloatVal
  min_height : FloatVal
  max_width : FloatVal
  max_height : FloatVal
  deriving DecidableEq, Repr

/-- Embeds `WindowResizeConstraints::check_constraints`: raises each minimum to
at least 1 and, when a maximum is below the (raised) minimum, raises the
maximum to that minimum (the source logs a warning in that case). -/
def WindowResizeConstraints.check_constraints (c : WindowResizeConstraints) :
    WindowResizeConstraints :=
  let min_width := c.min_width.max (.fin 1)
  let min_height := c.min_height.max (.fin 1)
  let max_width := if c.max_width.lt min_width then min_width else c.max_width
  let max_height := if c.max_height.lt min_height then min_height else c.max_height
  ⟨min_width, min_height, max_width, max_height⟩

/-- C10: for every input, `check_constraints` returns minima that are at least
1; whenever the input has `max < min` on an axis the result has `max = min` on
that axis; and applying `check_constraints` twice equals applying it once. -/
theorem check_constraints_spec (c : WindowResizeConstraints) :
    FloatVal.le (.fin 1) c.check_constraints.min_width = true
  ∧ FloatVal.le (.fin 1) c.check_constraints.min_height = true
  ∧ (c.max_width.lt c.min_width = true →
      c.check_constraints.max_width = c.check_constraints.min_width)
  ∧ (c.max_height.lt c.min_height = true →
      c.check_constraints.max_height = c.check_constraints.min_height)
  ∧ c.check_constraints.check_constraints = c.check_constraints := by
  obtain ⟨mw, mh, xw, xh⟩ := c
  refine ⟨FloatVal.one_le_max_one mw, FloatVal.one_le_max_one mh, ?_, ?_, ?_⟩
  · intro h
    simp only [WindowResizeConstraints.check_constraints, FloatVal.lt_max_one h, if_true]
  · intro h
    simp only [WindowResizeConstraints.check_constraints, FloatVal.lt_max_one h, if_true]
  · simp only [WindowResizeConstraints.check_constraints, FloatVal.max_one_idem]
    by_cases hw : xw.lt (mw.max (.fin 1)) = true <;>
      by_cases hh : xh.lt (mh.max (.fin 1)) = true <;>
        simp [hw, hh, FloatVal.lt_irrefl]

/-- C10 witness: evaluation of `check_constraints_spec` at a concrete input
with `max_width < min_width` and `max_height < min_height`. -/
theorem check_constraints_spec_witness :
    (WindowResizeConstraints.mk (.fin 180) (.fin 120) (.fin 20) (.fin 10)).check_constraints.max_width
      = (WindowResizeConstraints.mk (.fin 180) (.fin 120) (.fin 20) (.fin 10)).check_constraints.min_width
  ∧ FloatVal.le (.fin 1)
      (WindowResizeConstraints.mk (.fin 180) (.fin 120) (.fin 20) (.fin 10)).check_constraints.min_width = true :=
  ⟨(check_constraints_spec ⟨.fin 180, .fin 120, .fin 20, .fin 10⟩).2.2.1 (by decide),
   (check_constraints_spec ⟨.fin 180, .fin 120, .fin 20, .fin 10⟩).1⟩

/-- Embeds `WindowResolution` (bevy_window/src/window.rs): requested logical
size, actual physical size, base scale factor and optional override. -/
structure WindowResolution where
  requested_width : ℚ
  requested_height : ℚ
  physical_width : ℕ
  physical_height : ℕ
  scale_factor_override : Option ℚ
  scale_factor : ℚ
  deriving DecidableEq, Repr

namespace WindowResolution

/-- Embeds `WindowResolution::scale_factor()`: the override if set, otherwise
the base scale factor reported by the backend. -/
def effective_scale_factor (r : WindowResolution) : ℚ :=
  r.scale_factor_override.getD r.scale_factor

/-- Embeds `WindowResolution::width()`: physical width divided by the
effective scale factor. -/
def width (r : WindowResolution) : ℚ :=
  (r.physical_width : ℚ) / r.effective_scale_factor

/-- Embeds `WindowResolution::height()`. -/
def height (r : WindowResolution) : ℚ :=
  (r.physical_height : ℚ) / r.effective_scale_factor

/-- Embeds `WindowResolution::zero()`: both physical dimensions are zero. -/
def zero (r : WindowResolution) : Bool :=
  r.physical_height = 0 && r.physical_width = 0

end WindowResolution

/-- Rust `f64::round` (half away from zero), on the exact model. -/
def qround (q : ℚ) : ℤ :=
  if 0 ≤ q then ⌊q + 1/2⌋ else ⌈q - 1/2⌉

/-- Embeds winit's `LogicalSize::to_physical::<u32>` on one axis: multiply by
the scale factor, round, saturate into `u32` (negative values clamp to 0). -/
def to_physical_u32 (logical scale : ℚ) : ℕ :=
  (qround (logical * scale)).toNat

/-- Embeds winit's `VideoMode` as used by the source: size, bit depth and
refresh rate. -/
structure VideoMode where
  width : ℕ
  height : ℕ
  bit_depth : ℕ
  refresh_rate : ℕ
  deriving DecidableEq, Repr

/-- Embeds winit's `MonitorHandle` as used by the source: physical size,
physical position and the list of supported video modes. -/
structure MonitorHandle where
  width : ℕ
  height : ℕ
  position_x : ℤ
  position_y : ℤ
  video_modes : List VideoMode
  deriving DecidableEq, Repr

/-- Embeds `MonitorSelection` (bevy_window/src/window.rs). -/
inductive MonitorSelection
  | Current
  | Primary
  | Number (n : ℕ)
  deriving DecidableEq, Repr

/-- Embeds `WindowPosition` (bevy_window/src/window.rs). -/
inductive WindowPosition
  | Automatic
  | Centered (sel : MonitorSelection)
  | At (x y : ℤ)
  deriving DecidableEq, Repr

/-- Embeds the `maybe_monitor` selection inside `winit_window_position`
(bevy_winit/src/winit_windows.rs): Current resolves to the current monitor
(if any), Primary to the primary monitor (if any), Number(n) to the nth
available monitor in enumeration order. -/
def select_monitor (monitor_selection : MonitorSelection)
    (available_monitors : List MonitorHandle)
    (primary_monitor current_monitor : Option MonitorHandle) : Option MonitorHandle :=
  match monitor_selection with
  | .Current => current_monitor
  | .Primary => primary_monitor
  | .Number n => available_monitors[n]?

/-- Embeds `winit_window_position` (bevy_winit/src/winit_windows.rs). Returns
the resolved physical position (if any) together with the warnings logged.
`Nat` subtraction models the source's `saturating_sub`. -/
def winit_window_position (position : WindowPosition) (resolution : WindowResolution)
    (available_monitors : List MonitorHandle)
    (primary_monitor current_monitor : Option MonitorHandle) :
    Option (ℚ × ℚ) × List String :=
  match position with
  | .Automatic => (none, [])
  | .Centered monitor_selection =>
    let warn_current : List String :=
      match monitor_selection, current_monitor with
      | .Current, none => ["warn: cannot select current monitor on window creation"]
      | _, _ => []
    match select_monitor monitor_selection available_monitors primary_monitor current_monitor with
    | some monitor =>
      let scale_factor := resolution.effective_scale_factor
      let w := to_physical_u32 resolution.width scale_factor
      let h := to_physical_u32 resolution.height scale_factor
      (some (((monitor.width - w : ℕ) : ℚ) / 2 + (monitor.position_x : ℚ),
             ((monitor.height - h : ℕ) : ℚ) / 2 + (monitor.position_y : ℚ)),
       warn_current)
    | none => (none, warn_current ++ ["warn: could not get selected monitor"])
  | .At x y => (some ((x : ℚ) * resolution.effective_scale_factor,
                      (y : ℚ) * resolution.effective_scale_factor), [])

/-- C2: centered positioning. Current with no current monitor warns and
resolves to no position; Number(n) out of range resolves to no position; a
selected monitor yields `(monitor_size - window_physical_size)/2 +
monitor_origin` with saturating subtraction; the concrete 1920x1080 scenario
yields (560, 240). -/
theorem winit_window_position_centered_spec :
    (∀ resolution available primary,
      (winit_window_position (.Centered .Current) resolution available primary none).1 = none
      ∧ (winit_window_position (.Centered .Current) resolution available primary none).2 ≠ [])
  ∧ (∀ resolution available primary current n, available.length ≤ n →
      (winit_window_position (.Centered (.Number n)) resolution available primary current).1 = none)
  ∧ (∀ sel resolution available primary current monitor,
      select_monitor sel available primary current = some monitor →
      (winit_window_position (.Centered sel) resolution available primary current).1 =
        some (((monitor.width -
                 to_physical_u32 resolution.width resolution.effective_scale_factor : ℕ) : ℚ) / 2
                + (monitor.position_x : ℚ),
              ((monitor.height -
                 to_physical_u32 resolution.height resolution.effective_scale_factor : ℕ) : ℚ) / 2
                + (monitor.position_y : ℚ)))
  ∧ (winit_window_position (.Centered .Primary) ⟨800, 600, 800, 600, none, 1⟩
        [] (some ⟨1920, 1080, 0, 0, []⟩) none).1 = some (560, 240) := by
  refine ⟨?_, ?_, ?_, ?_⟩
  · intro resolution available primary
    simp [winit_window_position, select_monitor]
  · intro resolution available primary current n hn
    simp only [winit_window_position, select_monitor]
    rw [List.getElem?_eq_none hn]
  · intro sel resolution available primary current monitor hsel
    simp only [winit_window_position, hsel]
  · simp only [winit_window_position, select_monitor]
    norm_num [WindowResolution.width, WindowResolution.height,
      WindowResolution.effective_scale_factor, to_physical_u32, qround,
      show Int.toNat 800 = 800 from rfl, show Int.toNat 600 = 600 from rfl]

/-- C2 witness: evaluation of `winit_window_position_centered_spec` at
concrete inputs (empty monitor list for the out-of-range case, a concrete
monitor for the formula case). -/
theorem winit_window_position_centered_spec_witness :
    (winit_window_position (.Centered (.Number 0)) ⟨800, 600, 800, 600, none, 1⟩
        [] none none).1 = none
  ∧ (winit_window_position (.Centered .Primary) ⟨800, 600, 800, 600, none, 1⟩
        [] (some ⟨1920, 1080, 0, 0, []⟩) none).1 =
      some ((((⟨1920, 1080, 0, 0, []⟩ : MonitorHandle).width -
               to_physical_u32 (⟨800, 600, 800, 600, none, 1⟩ : WindowResolution).width
                 (⟨800, 600, 800, 600, none, 1⟩ : WindowResolution).effective_scale_factor : ℕ) : ℚ) / 2
              + ((⟨1920, 1080, 0, 0, []⟩ : MonitorHandle).position_x : ℚ),
            (((⟨1920, 1080, 0, 0, []⟩ : MonitorHandle).height -
               to_physical_u32 (⟨800, 600, 800, 600, none, 1⟩ : WindowResolution).height
                 (⟨800, 600, 800, 600, none, 1⟩ : WindowResolution).effective_scale_factor : ℕ) : ℚ) / 2
              + ((⟨1920, 1080, 0, 0, []⟩ : MonitorHandle).position_y : ℚ)) :=
  ⟨winit_window_position_centered_spec.2.1 ⟨800, 600, 800, 600, none, 1⟩ [] none none 0
      (by decide),
   winit_window_position_centered_spec.2.2.1 .Primary ⟨800, 600, 800, 600, none, 1⟩ []
      (some ⟨1920, 1080, 0, 0, []⟩) none ⟨1920, 1080, 0, 0, []⟩ (by decide)⟩

/-- Embeds the `PrimaryWindow` resource (bevy_window/src/lib.rs): the entity
currently considered primary, if any. Entities are modelled as naturals. -/
structure PrimaryWindow where
  window : Option ℕ
  deriving DecidableEq, Repr

/-- Embeds `exit_on_primary_closed` (bevy_window/src/system.rs): when the
`PrimaryWindow` resource is present, send one `AppExit` per `WindowClosed`
event whose entity the resource designates; otherwise do nothing. The
returned list collects the `AppExit` events sent. -/
def exit_on_primary_closed (primary_window : Option PrimaryWindow)
    (window_close : List ℕ) : List Unit :=
  match primary_window with
  | some primary => window_close.filterMap fun w =>
      if primary.window = some w then some () else none
  | none => []

/-- C5 counterexample: with no primary-window designation (whether the
resource is absent or holds no entity) and a closed window, no `AppExit` is
emitted — the claim says the missing-primary case already satisfies the exit
condition and an exit request is emitted. -/
theorem exit_on_primary_closed_counterexample :
    exit_on_primary_closed (some ⟨none⟩) [5] = []
  ∧ exit_on_primary_closed none [5] = [] := by
  constructor <;> rfl

/-- C5 amended: an application-exit request is emitted iff the primary-window
resource is present, designates an entity, and that entity appears among the
closed windows; when no primary designation exists the system emits
nothing. -/
theorem exit_on_primary_closed_amended (primary_window : Option PrimaryWindow)
    (closes : List ℕ) :
    (exit_on_primary_closed primary_window closes ≠ [] ↔
      ∃ p e, primary_window = some p ∧ p.window = some e ∧ e ∈ closes)
  ∧ exit_on_primary_closed none closes = []
  ∧ exit_on_primary_closed (some ⟨none⟩) closes = [] := by
  refine ⟨?_, rfl, by simp [exit_on_primary_closed]⟩
  cases primary_window with
  | none => simp [exit_on_primary_closed]
  | some p =>
    simp only [exit_on_primary_closed, ne_eq, List.filterMap_eq_nil, not_forall]
    constructor
    · rintro ⟨w, hw, hne⟩
      by_cases hpw : p.window = some w
      · exact ⟨p, w, rfl, hpw, hw⟩
      · simp [hpw] at hne
    · rintro ⟨p', e, hp, hpe, he⟩
      cases hp
      exact ⟨e, he, by simp [hpe]⟩

/-- Embeds the local `abs_diff` helper inside `get_fitting_videomode`
(bevy_winit/src/winit_windows.rs). -/
def abs_diff (a b : ℕ) : ℕ :=
  if a > b then a - b else b - a

/-- Embeds the comparator closure passed to `modes.sort_by` in
`get_fitting_videomode`: compare distance of widths to the target width, then
distance of heights to the target height, then refresh rate descending. -/
def fitting_cmp (width height : ℕ) (a b : VideoMode) : Ordering :=
  match compare (abs_diff a.width width) (abs_diff b.width width) with
  | .eq =>
    match compare (abs_diff a.height height) (abs_diff b.height height) with
    | .eq => compare b.refresh_rate a.refresh_rate
    | o => o
  | o => o

/-- Boolean order derived from the comparator, used to model Rust's stable
`sort_by`: `a` precedes-or-ties `b` iff the comparator does not place `a`
after `b`. -/
def fitting_le (width height : ℕ) (a b : VideoMode) : Bool :=
  match fitting_cmp width height a b with
  | .gt => false
  | _ => true

/-- Embeds `get_fitting_videomode` (bevy_winit/src/winit_windows.rs): stable
sort of the monitor's video modes by the comparator, then the first element.
The source calls `.first().unwrap()`; `none` models the panic on a monitor
reporting zero modes. -/
def get_fitting_videomode (monitor : MonitorHandle) (width height : ℕ) :
    Option VideoMode :=
  (monitor.video_modes.mergeSort (fitting_le width height)).head?

theorem fitting_le_iff (w h : ℕ) (a b : VideoMode) :
    fitting_le w h a b = true ↔
      (abs_diff a.width w < abs_diff b.width w
        ∨ (abs_diff a.width w = abs_diff b.width w
            ∧ (abs_diff a.height h < abs_diff b.height h
              ∨ (abs_diff a.height h = abs_diff b.height h
                  ∧ b.refresh_rate ≤ a.refresh_rate)))) := by
  unfold fitting_le fitting_cmp
  rcases Nat.lt_trichotomy (abs_diff a.width w) (abs_diff b.width w) with hw | hw | hw
  · rw [Nat.compare_eq_lt.mpr hw]
    simp; omega
  · rw [Nat.compare_eq_eq.mpr hw]
    rcases Nat.lt_trichotomy (abs_diff a.height h) (abs_diff b.height h) with hh | hh | hh
    · rw [Nat.compare_eq_lt.mpr hh]
      simp; omega
    · rw [Nat.compare_eq_eq.mpr hh]
      rcases Nat.lt_trichotomy b.refresh_rate a.refresh_rate with hr | hr | hr
      · rw [Nat.compare_eq_lt.mpr hr]
        simp; omega
      · rw [Nat.compare_eq_eq.mpr hr]
        simp; omega
      · rw [Nat.compare_eq_gt.mpr hr]
        simp; omega
    · rw [Nat.compare_eq_gt.mpr hh]
      simp; omega
  · rw [Nat.compare_eq_gt.mpr hw]
    simp; omega

theorem fitting_le_total (w h : ℕ) (a b : VideoMode) :
    (fitting_le w h a b || fitting_le w h b a) = true := by
  rw [Bool.or_eq_true, fitting_le_iff, fitting_le_iff]
  omega

theorem fitting_le_trans (w h : ℕ) (a b c : VideoMode)
    (hab : fitting_le w h a b = true) (hbc : fitting_le w h b c = true) :
    fitting_le w h a c = true := by
  rw [fitting_le_iff] at hab hbc ⊢
  omega

/-- A mode returned by `get_fitting_videomode` is one of the monitor's modes
and is minimal for the comparator among all of them. -/
theorem get_fitting_videomode_min {monitor : MonitorHandle} {w h : ℕ} {m : VideoMode}
    (hm : get_fitting_videomode monitor w h = some m) :
    m ∈ monitor.video_modes
    ∧ ∀ x ∈ monitor.video_modes, fitting_le w h m x = true := by
  unfold get_fitting_videomode at hm
  obtain ⟨t, ht⟩ := List.head?_eq_some_iff.mp hm
  have hperm := List.mergeSort_perm monitor.video_modes (fitting_le w h)
  have hsorted := @List.sorted_mergeSort _ (fitting_le w h)
    (fun a b c => fitting_le_trans w h a b c)
    (fun a b => fitting_le_total w h a b) monitor.video_modes
  rw [ht] at hperm hsorted
  constructor
  · exact hperm.mem_iff.mp (List.mem_cons_self m t)
  · intro x hx
    rcases List.mem_cons.mp (hperm.mem_iff.mpr hx) with hhd | htl
    · subst hhd
      rw [fitting_le_iff]
      omega
    · exact (List.pairwise_cons.mp hsorted).1 x htl

theorem abs_diff_self (a : ℕ) : abs_diff a a = 0 := by
  simp [abs_diff]

theorem abs_diff_eq_zero {a b : ℕ} : abs_diff a b = 0 ↔ a = b := by
  unfold abs_diff
  split <;> omega

/-- C9: fitting video-mode selection is idempotent: on a monitor whose
maximal-refresh-rate mode of each size is unique, requesting the exact width
and height of a mode returned by `get_fitting_videomode` returns that same
mode again. -/
theorem get_fitting_videomode_idem (monitor : MonitorHandle) (w h : ℕ) (m : VideoMode)
    (huniq : ∀ a ∈ monitor.video_modes, ∀ b ∈ monitor.video_modes,
      a.width = b.width → a.height = b.height → a.refresh_rate = b.refresh_rate →
      (∀ c ∈ monitor.video_modes, c.width = a.width → c.height = a.height →
        c.refresh_rate ≤ a.refresh_rate) → a = b)
    (hm : get_fitting_videomode monitor w h = some m) :
    get_fitting_videomode monitor m.width m.height = some m := by
  obtain ⟨hmem, hmin⟩ := get_fitting_videomode_min hm
  cases hm2 : get_fitting_videomode monitor m.width m.height with
  | none =>
    unfold get_fitting_videomode at hm2
    rw [List.head?_eq_none_iff] at hm2
    have hperm := List.mergeSort_perm monitor.video_modes (fitting_le m.width m.height)
    rw [hm2] at hperm
    have hnil : monitor.video_modes = [] := hperm.symm.eq_nil
    rw [hnil] at hmem
    exact absurd hmem (List.not_mem_nil m)
  | some m2 =>
    obtain ⟨hmem2, hmin2⟩ := get_fitting_videomode_min hm2
    have h1 := hmin2 m hmem
    have h2 := hmin m2 hmem2
    rw [fitting_le_iff, abs_diff_self, abs_diff_self] at h1
    have hw2 : m2.width = m.width := abs_diff_eq_zero.mp (by omega)
    have hh2 : m2.height = m.height := abs_diff_eq_zero.mp (by omega)
    have hr2 : m.refresh_rate ≤ m2.refresh_rate := by omega
    rw [fitting_le_iff, hw2, hh2] at h2
    have hrr : m.refresh_rate = m2.refresh_rate := by omega
    have hmaxm : ∀ c ∈ monitor.video_modes, c.width = m.width → c.height = m.height →
        c.refresh_rate ≤ m.refresh_rate := by
      intro c hc hcw hch
      have hmc := hmin c hc
      rw [fitting_le_iff, hcw, hch] at hmc
      omega
    have heq : m = m2 :=
      huniq m hmem m2 hmem2 hw2.symm hh2.symm hrr hmaxm
    rw [heq]

/-- C9 witness: evaluation of `get_fitting_videomode_idem` on a concrete
one-mode monitor: fitting selection at (800, 600) returns the 1920x1080 mode,
and requesting its exact size returns it again. -/
theorem get_fitting_videomode_idem_witness :
    get_fitting_videomode ⟨1920, 1080, 0, 0, [⟨1920, 1080, 32, 60⟩]⟩
      (VideoMode.mk 1920 1080 32 60).width (VideoMode.mk 1920 1080 32 60).height =
      some ⟨1920, 1080, 32, 60⟩ :=
  get_fitting_videomode_idem ⟨1920, 1080, 0, 0, [⟨1920, 1080, 32, 60⟩]⟩ 800 600
    ⟨1920, 1080, 32, 60⟩ (by decide)
    (by simp [get_fitting_videomode, List.mergeSort_singleton])

/-- Embeds `WindowState` (bevy_window/src/window.rs). -/
inductive WindowState
  | Normal
  | Minimized
  | Maximized
  deriving DecidableEq, Repr

/-- Embeds `CursorPosition` (bevy_window/src/window.rs): the cursor position
in physical pixels, absent when the pointer is outside the window. -/
structure CursorPosition where
  physical_cursor_position : Option (ℚ × ℚ)
  deriving DecidableEq, Repr

/-- Modelled from the spec: `WindowResolution::update_actual_size_from_backend`
is called by the translator (bevy_winit/src/lib.rs) but its definition is not
among the reviewed sources; per the spec ("Resize → update
`resolution.physical_*`") it stores the backend-reported physical size, the
same effect as the in-source `WindowResolution::set_physical_resolution`. -/
def WindowResolution.update_actual_size_from_backend
    (r : WindowResolution) (width height : ℕ) : WindowResolution :=
  { r with physical_width := width, physical_height := height }

/-- Modelled from the spec: `WindowResolution::update_scale_factor_from_backend`
is called by the translator but its definition is not among the reviewed
sources; per the spec ("ScaleFactorChanged → update base scale factor") it
stores the backend-reported base scale factor, the same effect as the
in-source `WindowResolution::set_scale_factor`. -/
def WindowResolution.update_scale_factor_from_backend
    (r : WindowResolution) (scale_factor : ℚ) : WindowResolution :=
  { r with scale_factor := scale_factor }

/-- Modelled from the spec: `CursorPosition::update_position_from_backend` is
called by the translator but its definition is not among the reviewed
sources; per the spec ("CursorMoved → ... update `cursor_position`";
"Left also clears `cursor_position` to absent") it stores the given optional
physical position, the same effect as the in-source `CursorPosition::set`. -/
def CursorPosition.update_position_from_backend
    (c : CursorPosition) (position : Option (ℚ × ℚ)) : CursorPosition :=
  { c with physical_cursor_position := position }

/-- Modelled from the spec: `WindowPosition::update_actual_position_from_backend`
is called by the translator but its definition is not among the reviewed
sources; per the spec ("Moved(point) → update `position` to `At(point)`"). -/
def WindowPosition.update_actual_position_from_backend
    (_p : WindowPosition) (x y : ℤ) : WindowPosition :=
  .At x y

/-- Model of the per-entity window components the translator touches.
`Option` marks components the entity may lack (the translator panics through
`expect`/`panic!` when a needed one is missing); `currently_focused` models
the presence of the `WindowCurrentlyFocused` marker component. -/
structure WindowRecord where
  resolution : Option WindowResolution
  cursor_position : Option CursorPosition
  position : Option WindowPosition
  state : WindowState
  currently_focused : Bool
  deriving DecidableEq, Repr

/-- Embeds `MouseScrollUnit` (bevy_input) as used by the `MouseWheel` arm. -/
inductive MouseScrollUnit
  | Line
  | Pixel
  deriving DecidableEq, Repr

/-- Embeds `FileDragAndDrop` (bevy_window/src/event.rs). -/
inductive FileDragAndDrop
  | DroppedFile (entity : ℕ) (path : String)
  | HoveredFile (entity : ℕ) (path : String)
  | HoveredFileCancelled (entity : ℕ)
  deriving DecidableEq, Repr

/-- Domain and input events emitted by the translator, one list per event
type (most recent last). Payloads of re-shaped input events are abstracted
to plain data since their converters are not part of the reviewed logic. -/
structure DomainEvents where
  window_resized : List (ℕ × ℚ × ℚ)
  window_close_requested : List ℕ
  keyboard_input : List ℕ
  cursor_moved : List (ℕ × ℚ × ℚ)
  cursor_entered : List ℕ
  cursor_left : List ℕ
  mouse_button_input : List (ℕ × ℕ)
  mouse_wheel : List (MouseScrollUnit × ℚ × ℚ)
  touch_input : List (ℚ × ℚ × ℕ × ℕ)
  received_character : List (ℕ × Char)
  window_backend_scale_factor_changed : List (ℕ × ℚ)
  window_scale_factor_changed : List (ℕ × ℚ)
  window_focused : List (ℕ × Bool)
  file_drag_and_drop : List FileDragAndDrop
  window_moved : List (ℕ × ℤ × ℤ)
  deriving DecidableEq, Repr

/-- Empty event collections. -/
def emptyEvents : DomainEvents :=
  ⟨[], [], [], [], [], [], [], [], [], [], [], [], [], [], []⟩

/-- Model of the slice of the ECS world the translator reads and writes: the
window records (entity id to components) and the event collections. -/
structure AppWorld where
  records : List (ℕ × WindowRecord)
  events : DomainEvents
  deriving DecidableEq, Repr

/-- Updates the record stored under an entity id, leaving other entries and
missing ids untouched (the ECS `get_mut` plus write-back). -/
def setRecord (w : List (ℕ × WindowRecord)) (e : ℕ)
    (f : WindowRecord → WindowRecord) : List (ℕ × WindowRecord) :=
  w.map fun p => if p.1 = e then (p.1, f p.2) else p

/-- Model of a native winit window as read by the translator: its current
inner size in physical pixels. -/
structure WinitWindow where
  inner_width : ℕ
  inner_height : ℕ
  deriving DecidableEq, Repr

/-- Embeds `WinitWindows` (bevy_winit/src/winit_windows.rs): the map from
winit window ids to native windows and the two entity/id association maps. -/
structure WinitWindows where
  windows : List (ℕ × WinitWindow)
  window_id_to_winit : List (ℕ × ℕ)
  winit_to_window_id : List (ℕ × ℕ)
  deriving DecidableEq, Repr

namespace WinitWindows

/-- Embeds `WinitWindows::get_window_entity`. -/
def get_window_entity (ww : WinitWindows) (winit_id : ℕ) : Option ℕ :=
  ww.winit_to_window_id.lookup winit_id

/-- Embeds `WinitWindows::get_window`. -/
def get_window (ww : WinitWindows) (entity : ℕ) : Option WinitWindow :=
  (ww.window_id_to_winit.lookup entity).bind fun winit_id => ww.windows.lookup winit_id

/-- Embeds `WinitWindows::remove_window`: removes the entity's handle entry
and the native window, deliberately keeping the `winit_to_window_id` entry
(the source comments: "Don't remove from winit_to_window_id, to track that we
used to know about this winit window"). Returns the removed window and the
updated table. -/
def remove_window (ww : WinitWindows) (entity : ℕ) :
    Option WinitWindow × WinitWindows :=
  match ww.window_id_to_winit.lookup entity with
  | none => (none, ww)
  | some winit_id =>
    (ww.windows.lookup winit_id,
     { ww with
        windows := ww.windows.filter fun p => p.1 != winit_id,
        window_id_to_winit := ww.window_id_to_winit.filter fun p => p.1 != entity })

end WinitWindows

/-- Embeds winit's `WindowEvent` as matched by the translator. Payloads that
are merely re-shaped are abstracted to plain data; `Other` stands for the
variants reaching the catch-all arm. -/
inductive WindowEvent
  | Resized (width height : ℕ)
  | CloseRequested
  | KeyboardInput (input : ℕ)
  | CursorMoved (x y : ℚ)
  | CursorEntered
  | CursorLeft
  | MouseInput (button state : ℕ)
  | MouseWheelLine (x y : ℚ)
  | MouseWheelPixel (x y : ℚ)
  | Touch (x y : ℚ) (phase finger_id : ℕ)
  | ReceivedCharacter (c : Char)
  | ScaleFactorChanged (scale_factor : ℚ) (new_inner_width new_inner_height : ℕ)
  | Focused (focused : Bool)
  | DroppedFile (path : String)
  | HoveredFile (path : String)
  | HoveredFileCancelled
  | Moved (x y : ℤ)
  | Other
  deriving DecidableEq, Repr

/-- Embeds `WinitPersistentState` (bevy_winit/src/lib.rs); the `Instant` is
modelled as a rational time stamp. -/
structure WinitPersistentState where
  active : Bool
  low_power_event : Bool
  redraw_request_sent : Bool
  timeout_reached : Bool
  last_update : ℚ
  deriving DecidableEq, Repr

/-- Result of one translator invocation: the updated world and persistent
state, the (possibly rewritten) `new_inner_size` handed back to the backend
by the `ScaleFactorChanged` arm, and the warnings logged. -/
structure HandlerResult where
  world : AppWorld
  winit_state : WinitPersistentState
  new_inner_size : Option (ℕ × ℕ)
  logs : List String
  deriving DecidableEq, Repr

/-- Embeds the `Event::WindowEvent` arm of the event handler in
`winit_runner_with` (bevy_winit/src/lib.rs). Rust panics (`panic!`, `expect`,
`unwrap`) are modelled as `Except.error` carrying the panic message. An
unknown winit window id is logged and the event is skipped before
`low_power_event` is set; a known id sets `low_power_event` and dispatches on
the event. The vertical touch flip is compiled out on desktop targets, which
this embedding models. -/
def handle_window_event (winit_windows : WinitWindows) (winit_window_id : ℕ)
    (event : WindowEvent) (world : AppWorld) (winit_state : WinitPersistentState) :
    Except String HandlerResult :=
  match winit_windows.get_window_entity winit_window_id with
  | none =>
    .ok ⟨world, winit_state, none, ["warn: skipped event for unknown winit window id"]⟩
  | some window_entity =>
    let winit_state := { winit_state with low_power_event := true }
    match event with
    | .Resized width height =>
      match (world.records.lookup window_entity).bind (·.resolution) with
      | some resolution_component =>
        let res := resolution_component.update_actual_size_from_backend width height
        let new_records := setRecord world.records window_entity
          (fun r => { r with resolution := some res })
        let new_events := { world.events with
          window_resized := world.events.window_resized
            ++ [(window_entity, res.width, res.height)] }
        .ok ⟨⟨new_records, new_events⟩, winit_state, none, []⟩
      | none => .error "Window does not have a valid WindowResolution component"
    | .CloseRequested =>
      .ok ⟨{ world with events := { world.events with
               window_close_requested := world.events.window_close_requested
                 ++ [window_entity] } },
           winit_state, none, []⟩
    | .KeyboardInput input =>
      .ok ⟨{ world with events := { world.events with
               keyboard_input := world.events.keyboard_input ++ [input] } },
           winit_state, none, []⟩
    | .CursorMoved x y =>
      match winit_windows.get_window window_entity with
      | none => .error "called Option::unwrap on a None value"
      | some winit_window =>
        match (world.records.lookup window_entity).bind (·.resolution) with
        | none => .error "Window should have a WindowResolution component"
        | some window_resolution =>
          match (world.records.lookup window_entity).bind (·.cursor_position) with
          | none => .error "Window should have a WindowCursorPosition component"
          | some cursor_position =>
            let y_position := (winit_window.inner_height : ℚ) - y
            let physical_position := (x, y_position)
            let cursor_position :=
              cursor_position.update_position_from_backend (some physical_position)
            let new_records := setRecord world.records window_entity
              (fun r => { r with cursor_position := some cursor_position })
            let new_events := { world.events with
              cursor_moved := world.events.cursor_moved
                ++ [(window_entity,
                     physical_position.1 / window_resolution.effective_scale_factor,
                     physical_position.2 / window_resolution.effective_scale_factor)] }
            .ok ⟨⟨new_records, new_events⟩, winit_state, none, []⟩
    | .CursorEntered =>
      .ok ⟨{ world with events := { world.events with
               cursor_entered := world.events.cursor_entered ++ [window_entity] } },
           winit_state, none, []⟩
    | .CursorLeft =>
      match (world.records.lookup window_entity).bind (·.cursor_position) with
      | none => .error "Window should have a WindowCursorComponent component"
      | some cursor_position =>
        let cursor_position := cursor_position.update_position_from_backend none
        let new_records := setRecord world.records window_entity
          (fun r => { r with cursor_position := some cursor_position })
        let new_events := { world.events with
          cursor_left := world.events.cursor_left ++ [window_entity] }
        .ok ⟨⟨new_records, new_events⟩, winit_state, none, []⟩
    | .MouseInput button state =>
      .ok ⟨{ world with events := { world.events with
               mouse_button_input := world.events.mouse_button_input ++ [(button, state)] } },
           winit_state, none, []⟩
    | .MouseWheelLine x y =>
      .ok ⟨{ world with events := { world.events with
               mouse_wheel := world.events.mouse_wheel ++ [(MouseScrollUnit.Line, x, y)] } },
           winit_state, none, []⟩
    | .MouseWheelPixel x y =>
      .ok ⟨{ world with events := { world.events with
               mouse_wheel := world.events.mouse_wheel ++ [(MouseScrollUnit.Pixel, x, y)] } },
           winit_state, none, []⟩
    | .Touch x y phase finger_id =>
      match (world.records.lookup window_entity).bind (·.resolution) with
      | none => .error "Window should have a WindowResolution component"
      | some window_resolution =>
        let location := (x / window_resolution.effective_scale_factor,
                         y / window_resolution.effective_scale_factor)
        .ok ⟨{ world with events := { world.events with
                 touch_input := world.events.touch_input
                   ++ [(location.1, location.2, phase, finger_id)] } },
             winit_state, none, []⟩
    | .ReceivedCharacter c =>
      .ok ⟨{ world with events := { world.events with
               received_character := world.events.received_character
                 ++ [(window_entity, c)] } },
           winit_state, none, []⟩
    | .ScaleFactorChanged scale_factor new_inner_width new_inner_height =>
      let world := { world with events := { world.events with
        window_backend_scale_factor_changed :=
          world.events.window_backend_scale_factor_changed
            ++ [(window_entity, scale_factor)] } }
      match (world.records.lookup window_entity).bind (·.resolution) with
      | none => .error "Window should have a WindowResolution component"
      | some window_resolution =>
        let prior_factor := window_resolution.effective_scale_factor
        let window_resolution :=
          window_resolution.update_scale_factor_from_backend scale_factor
        let new_factor := window_resolution.effective_scale_factor
        let step : (ℕ × ℕ) × AppWorld :=
          match window_resolution.scale_factor_override with
          | some forced_factor =>
            ((to_physical_u32 window_resolution.requested_width forced_factor,
              to_physical_u32 window_resolution.requested_height forced_factor), world)
          | none =>
            if new_factor ≠ prior_factor then
              ((new_inner_width, new_inner_height),
               { world with events := { world.events with
                   window_scale_factor_changed :=
                     world.events.window_scale_factor_changed
                       ++ [(window_entity, scale_factor)] } })
            else ((new_inner_width, new_inner_height), world)
        let new_inner := step.1
        let world := step.2
        let new_logical_width := (new_inner.1 : ℚ) / new_factor
        let new_logical_height := (new_inner.2 : ℚ) / new_factor
        let world :=
          if window_resolution.width ≠ new_logical_width
              ∨ window_resolution.height ≠ new_logical_height then
            { world with events := { world.events with
                window_resized := world.events.window_resized
                  ++ [(window_entity, new_logical_width, new_logical_height)] } }
          else world
        let window_resolution :=
          window_resolution.update_actual_size_from_backend new_inner.1 new_inner.2
        let new_records := setRecord world.records window_entity
          (fun r => { r with resolution := some window_resolution })
        .ok ⟨{ world with records := new_records }, winit_state, some new_inner, []⟩
    | .Focused focused =>
      match world.records.lookup window_entity with
      | none => .error "Entity for window should exist"
      | some _ =>
        let new_records := setRecord world.records window_entity
          (fun r => { r with currently_focused := focused })
        let new_events := { world.events with
          window_focused := world.events.window_focused
            ++ [(window_entity, focused)] }
        .ok ⟨⟨new_records, new_events⟩, winit_state, none, []⟩
    | .DroppedFile path =>
      .ok ⟨{ world with events := { world.events with
               file_drag_and_drop := world.events.file_drag_and_drop
                 ++ [.DroppedFile window_entity path] } },
           winit_state, none, []⟩
    | .HoveredFile path =>
      .ok ⟨{ world with events := { world.events with
               file_drag_and_drop := world.events.file_drag_and_drop
                 ++ [.HoveredFile window_entity path] } },
           winit_state, none, []⟩
    | .HoveredFileCancelled =>
      .ok ⟨{ world with events := { world.events with
               file_drag_and_drop := world.events.file_drag_and_drop
                 ++ [.HoveredFileCancelled window_entity] } },
           winit_state, none, []⟩
    | .Moved x y =>
      match (world.records.lookup window_entity).bind (·.position) with
      | none => .error "Window should have a WindowPosition component"
      | some window_position =>
        let window_position := window_position.update_actual_position_from_backend x y
        let new_records := setRecord world.records window_entity
          (fun r => { r with position := some window_position })
        let new_events := { world.events with
          window_moved := world.events.window_moved ++ [(window_entity, x, y)] }
        .ok ⟨⟨new_records, new_events⟩, winit_state, none, []⟩
    | .Other => .ok ⟨world, winit_state, none, []⟩

theorem lookup_setRecord_self (w : List (ℕ × WindowRecord)) (e : ℕ)
    (f : WindowRecord → WindowRecord) :
    (setRecord w e f).lookup e = (w.lookup e).map f := by
  induction w with
  | nil => rfl
  | cons p t ih =>
    obtain ⟨k, v⟩ := p
    show List.lookup e ((if k = e then (k, f v) else (k, v)) :: setRecord t e f)
        = Option.map f (List.lookup e ((k, v) :: t))
    by_cases hk : k = e
    · rw [if_pos hk, hk]
      simp [List.lookup]
    · rw [if_neg hk]
      have hne : (e == k) = false := beq_eq_false_iff_ne.mpr fun h => hk h.symm
      simp only [List.lookup, hne]
      exact ih

theorem lookup_setRecord_ne (w : List (ℕ × WindowRecord)) {e e' : ℕ}
    (f : WindowRecord → WindowRecord) (h : e' ≠ e) :
    (setRecord w e f).lookup e' = w.lookup e' := by
  induction w with
  | nil => rfl
  | cons p t ih =>
    obtain ⟨k, v⟩ := p
    show List.lookup e' ((if k = e then (k, f v) else (k, v)) :: setRecord t e f)
        = List.lookup e' ((k, v) :: t)
    by_cases hk : k = e
    · rw [if_pos hk]
      have hne : (e' == k) = false := beq_eq_false_iff_ne.mpr (hk ▸ h)
      simp only [List.lookup, hne]
      exact ih
    · rw [if_neg hk]
      simp only [List.lookup]
      cases e' == k with
      | true => rfl
      | false => exact ih

/-- Concrete fixture: a window resolution of physical 800x600, base scale
factor 1, no override. -/
def res800 : WindowResolution := ⟨800, 600, 800, 600, none, 1⟩

/-- Concrete fixture: a window record with every component present. -/
def rec800 : WindowRecord := ⟨some res800, some ⟨none⟩, some .Automatic, .Normal, false⟩

/-- Concrete fixture: one native window of inner size 800x600 for entity 1
under winit id 7. -/
def ww800 : WinitWindows := ⟨[(7, ⟨800, 600⟩)], [(1, 7)], [(7, 1)]⟩

/-- Concrete fixture: the world containing only window entity 1. -/
def world800 : AppWorld := ⟨[(1, rec800)], emptyEvents⟩

/-- Concrete fixture: the default persistent state at time 0. -/
def state0 : WinitPersistentState := ⟨true, false, false, false, 0⟩

/-- C8: on a `CursorMoved` backend event at physical (x, y) for a known
window, the handler stores the window's cursor position as
(x, inner_height - y) — the bottom-left-origin physical coordinate, with the
window's physical height taken from the backend window — and emits a
`CursorMoved` domain event whose position is that physical position divided
by the window's effective scale factor. -/
theorem cursor_moved_spec (winit_windows : WinitWindows) (wid : ℕ) (x y : ℚ)
    (world : AppWorld) (s : WinitPersistentState) (e : ℕ) (rec : WindowRecord)
    (win : WinitWindow) (res : WindowResolution) (cur : CursorPosition)
    (hentity : winit_windows.get_window_entity wid = some e)
    (hwin : winit_windows.get_window e = some win)
    (hrec : world.records.lookup e = some rec)
    (hres : rec.resolution = some res)
    (hcur : rec.cursor_position = some cur) :
    ∃ r, handle_window_event winit_windows wid (.CursorMoved x y) world s = .ok r
      ∧ ((r.world.records.lookup e).bind (·.cursor_position))
          = some ⟨some (x, (win.inner_height : ℚ) - y)⟩
      ∧ r.world.events.cursor_moved = world.events.cursor_moved
          ++ [(e, x / res.effective_scale_factor,
               ((win.inner_height : ℚ) - y) / res.effective_scale_factor)] := by
  unfold handle_window_event
  rw [hentity]
  simp only [hwin, hrec, Option.some_bind, hres, hcur]
  refine ⟨_, rfl, ?_, rfl⟩
  rw [lookup_setRecord_self, hrec]
  rfl

/-- C8 witness: evaluation of `cursor_moved_spec` on the concrete fixtures at
backend cursor position (10, 20). -/
theorem cursor_moved_spec_witness :
    ∃ r, handle_window_event ww800 7 (.CursorMoved 10 20) world800 state0 = .ok r
      ∧ ((r.world.records.lookup 1).bind (·.cursor_position))
          = some ⟨some (10, ((WinitWindow.mk 800 600).inner_height : ℚ) - 20)⟩
      ∧ r.world.events.cursor_moved = world800.events.cursor_moved
          ++ [(1, 10 / res800.effective_scale_factor,
               (((WinitWindow.mk 800 600).inner_height : ℚ) - 20)
                 / res800.effective_scale_factor)] :=
  cursor_moved_spec ww800 7 10 20 world800 state0 1 rec800 ⟨800, 600⟩ res800 ⟨none⟩
    rfl rfl rfl rfl rfl

theorem append_singleton_ne {α : Type} (l : List α) (x : α) : l ++ [x] ≠ l := by
  intro h
  simpa using congrArg List.length h

/-- C1 counterexample: the spec's own scenario violates the claim. Starting
from physical 800x600 at base factor 1 with no override, the backend reports
factor 2 with proposed inner size 1600x1200. The resulting logical size
(800, 600) equals the previous logical size (`res800.width/height`), yet a
`WindowResized` event is emitted, because the source compares the new logical
size against the stored physical size divided by the already-updated factor
(400x300 here), not against the previous logical size. -/
theorem scale_factor_changed_resized_counterexample :
    (handle_window_event ww800 7 (.ScaleFactorChanged 2 1600 1200) world800 state0).map
      (fun r => r.world.events.window_resized) = .ok [(1, 800, 600)]
  ∧ res800.width = 800 ∧ res800.height = 600 := by
  refine ⟨?_, by norm_num [res800, WindowResolution.width,
      WindowResolution.effective_scale_factor],
    by norm_num [res800, WindowResolution.height,
      WindowResolution.effective_scale_factor]⟩
  norm_num [handle_window_event, ww800, world800, rec800, res800, state0,
    WinitWindows.get_window_entity, List.lookup,
    WindowResolution.effective_scale_factor, WindowResolution.width,
    WindowResolution.height, WindowResolution.update_scale_factor_from_backend,
    WindowResolution.update_actual_size_from_backend, emptyEvents, setRecord,
    Except.map]

/-- C1 amended: on `ScaleFactorChanged` for a known window: with an override
set, the proposed inner size handed back to the backend is rewritten to the
requested logical size at the override factor and no `WindowScaleFactorChanged`
is emitted; with no override and a changed base factor,
`WindowScaleFactorChanged` is emitted; and `WindowResized` is emitted iff the
(possibly rewritten) proposed size divided by the new effective factor
differs from the stored physical size divided by the new effective factor
(the stored logical size reevaluated under the new factor, not the pre-event
logical size). -/
theorem scale_factor_changed_amended (ww : WinitWindows) (wid : ℕ) (sf : ℚ)
    (niw nih : ℕ) (world : AppWorld) (s : WinitPersistentState) (e : ℕ)
    (rec : WindowRecord) (res : WindowResolution)
    (hentity : ww.get_window_entity wid = some e)
    (hrec : world.records.lookup e = some rec)
    (hres : rec.resolution = some res) :
    ∃ r, handle_window_event ww wid (.ScaleFactorChanged sf niw nih) world s = .ok r
      ∧ (∀ f, res.scale_factor_override = some f →
          r.new_inner_size = some (to_physical_u32 res.requested_width f,
                                   to_physical_u32 res.requested_height f)
          ∧ r.world.events.window_scale_factor_changed
              = world.events.window_scale_factor_changed)
      ∧ (res.scale_factor_override = none → sf ≠ res.scale_factor →
          r.world.events.window_scale_factor_changed
            = world.events.window_scale_factor_changed ++ [(e, sf)])
      ∧ (∀ ni, r.new_inner_size = some ni →
          (r.world.events.window_resized ≠ world.events.window_resized ↔
            ((ni.1 : ℚ) / (res.update_scale_factor_from_backend sf).effective_scale_factor
                ≠ (res.update_scale_factor_from_backend sf).width
              ∨ (ni.2 : ℚ) / (res.update_scale_factor_from_backend sf).effective_scale_factor
                ≠ (res.update_scale_factor_from_backend sf).height))) := by
  unfold handle_window_event
  rw [hentity]
  simp only [hrec, Option.some_bind, hres, WindowResolution.update_scale_factor_from_backend]
  cases hov : res.scale_factor_override with
  | some f =>
    simp only [hov]
    refine ⟨_, rfl, ?_, ?_, ?_⟩
    · intro g hg
      injection hg with hg
      subst hg
      refine ⟨rfl, ?_⟩
      simp only [apply_ite (fun (w : AppWorld) => w.events.window_scale_factor_changed),
        ite_self]
    · intro hno
      exact Option.noConfusion hno
    · intro ni hni
      injection hni with hni
      subst hni
      simp only [apply_ite (fun (w : AppWorld) => w.events.window_resized), ite_self]
      split
      next hC =>
        constructor
        · intro _
          exact hC.imp (fun h1 hx => h1 hx.symm) (fun h1 hx => h1 hx.symm)
        · intro _
          exact append_singleton_ne _ _
      next hC =>
        push_neg at hC
        simp [hC.1, hC.2]
  | none =>
    simp only [hov, WindowResolution.effective_scale_factor, Option.getD_none]
    by_cases hchg : sf = res.scale_factor
    · rw [if_neg (not_not_intro hchg)]
      refine ⟨_, rfl, ?_, ?_, ?_⟩
      · intro g hg
        exact Option.noConfusion hg
      · intro _ hne
        exact absurd hchg hne
      · intro ni hni
        injection hni with hni
        subst hni
        simp only [apply_ite (fun (w : AppWorld) => w.events.window_resized), ite_self]
        split
        next hC =>
          constructor
          · intro _
            exact hC.imp (fun h1 hx => h1 hx.symm) (fun h1 hx => h1 hx.symm)
          · intro _
            exact append_singleton_ne _ _
        next hC =>
          push_neg at hC
          simp [hC.1, hC.2]
    · rw [if_pos hchg]
      refine ⟨_, rfl, ?_, ?_, ?_⟩
      · intro g hg
        exact Option.noConfusion hg
      · intro _ _
        simp only [apply_ite (fun (w : AppWorld) => w.events.window_scale_factor_changed),
          ite_self]
      · intro ni hni
        injection hni with hni
        subst hni
        simp only [apply_ite (fun (w : AppWorld) => w.events.window_resized), ite_self]
        split
        next hC =>
          constructor
          · intro _
            exact hC.imp (fun h1 hx => h1 hx.symm) (fun h1 hx => h1 hx.symm)
          · intro _
            exact append_singleton_ne _ _
        next hC =>
          push_neg at hC
          simp [hC.1, hC.2]

/-- C1 witness: evaluation of `scale_factor_changed_amended` on the concrete
fixtures at backend factor 2 with proposed size 1600x1200. -/
theorem scale_factor_changed_amended_witness :
    ∃ r, handle_window_event ww800 7 (.ScaleFactorChanged 2 1600 1200) world800 state0 = .ok r
      ∧ (∀ f, res800.scale_factor_override = some f →
          r.new_inner_size = some (to_physical_u32 res800.requested_width f,
                                   to_physical_u32 res800.requested_height f)
          ∧ r.world.events.window_scale_factor_changed
              = world800.events.window_scale_factor_changed)
      ∧ (res800.scale_factor_override = none → (2 : ℚ) ≠ res800.scale_factor →
          r.world.events.window_scale_factor_changed
            = world800.events.window_scale_factor_changed ++ [(1, 2)])
      ∧ (∀ ni, r.new_inner_size = some ni →
          (r.world.events.window_resized ≠ world800.events.window_resized ↔
            ((ni.1 : ℚ) / (res800.update_scale_factor_from_backend 2).effective_scale_factor
                ≠ (res800.update_scale_factor_from_backend 2).width
              ∨ (ni.2 : ℚ) / (res800.update_scale_factor_from_backend 2).effective_scale_factor
                ≠ (res800.update_scale_factor_from_backend 2).height))) :=
  scale_factor_changed_amended ww800 7 2 1600 1200 world800 state0 1 rec800 res800
    rfl rfl rfl

/-- Concrete fixture: a window record lacking its `WindowResolution`
component. -/
def recNoRes : WindowRecord := ⟨none, some ⟨none⟩, some .Automatic, .Normal, false⟩

/-- Concrete fixture: the world where window entity 1 lacks
`WindowResolution`. -/
def worldNoRes : AppWorld := ⟨[(1, recNoRes)], emptyEvents⟩

/-- C7 counterexample: a `Resized` event for a known window lacking its
`WindowResolution` component panics (`panic!` in the source) instead of being
logged with processing continuing, contradicting the claim that only a
zero-video-mode monitor may fail unrecoverably. -/
theorem missing_component_panics :
    handle_window_event ww800 7 (.Resized 10 10) worldNoRes state0
      = .error "Window does not have a valid WindowResolution component" := rfl

/-- C7 amended: the translator does not panic when the event's window id is
unknown, nor for a known window whose backend window and components
(resolution, cursor position, position) are all present; a missing component,
however, is a panic (see the counterexample), as is a failed backend window
creation (`.build(event_loop).unwrap()` in the source). -/
theorem handle_window_event_total (ww : WinitWindows) (wid : ℕ) (ev : WindowEvent)
    (world : AppWorld) (s : WinitPersistentState)
    (hok : ∀ e, ww.get_window_entity wid = some e →
      ∃ rec res cur pos win, world.records.lookup e = some rec
        ∧ rec.resolution = some res ∧ rec.cursor_position = some cur
        ∧ rec.position = some pos ∧ ww.get_window e = some win) :
    ∃ r, handle_window_event ww wid ev world s = .ok r := by
  unfold handle_window_event
  cases hentity : ww.get_window_entity wid with
  | none => exact ⟨_, rfl⟩
  | some e =>
    obtain ⟨rec, res, cur, pos, win, hrec, hres, hcur, hpos, hwin⟩ := hok e hentity
    cases ev <;>
      simp only [hrec, Option.some_bind, hres, hcur, hpos, hwin] <;>
      exact ⟨_, rfl⟩

/-- C7 witness: evaluation of `handle_window_event_total` on the concrete
fixtures with all components present. -/
theorem handle_window_event_total_witness :
    ∃ r, handle_window_event ww800 7 (.Resized 10 10) world800 state0 = .ok r :=
  handle_window_event_total ww800 7 (.Resized 10 10) world800 state0
    (fun e he => by
      have he' : (1 : ℕ) = e := by injection he
      subst he'
      exact ⟨rec800, res800, ⟨none⟩, .Automatic, ⟨800, 600⟩, rfl, rfl, rfl, rfl, rfl⟩)

/-- C3: ids of already-destroyed windows are not dropped. After
`remove_window`, the stale `winit_to_window_id` entry still resolves the
destroyed window's id (kept by design: "to track that we used to know about
this winit window"), so the translator proceeds with the despawned entity,
and a `Resized` event then panics on the missing `WindowResolution` component
instead of being logged and ignored as the (commented-out) closed-window
guard used to do. -/
theorem destroyed_window_event_panics :
    (ww800.remove_window 1).2.get_window_entity 7 = some 1
  ∧ handle_window_event (ww800.remove_window 1).2 7 (.Resized 100 100)
      ⟨[], emptyEvents⟩ state0
      = .error "Window does not have a valid WindowResolution component" :=
  ⟨rfl, rfl⟩

/-- Modelled from the spec: the claimed post-event recomputation of
`WindowState` ("recompute state from backend-reported maximized flag and from
whether the resolution is degenerate (both dimensions zero ⇒ Minimized)").
The reviewed translator contains no such step; this definition captures the
claim so the stored state can be compared with it. -/
def recompute_window_state_spec (backend_maximized : Bool) (res : WindowResolution) :
    WindowState :=
  if res.zero then .Minimized else if backend_maximized then .Maximized else .Normal

/-- C4 counterexample: after a `Resized(0,0)` backend event for a known
window, the stored `WindowState` stays `Normal` although the spec-recomputed
state over the updated resolution is `Minimized` (backend maximized flag
false): the translator never recomputes the state, so the stored value is not
updated when the recomputed state differs. -/
theorem window_state_not_recomputed_counterexample :
    ∃ r, handle_window_event ww800 7 (.Resized 0 0) world800 state0 = .ok r
      ∧ (r.world.records.lookup 1).map (·.state) = some .Normal
      ∧ ((r.world.records.lookup 1).bind (·.resolution)).map
          (recompute_window_state_spec false) = some .Minimized
      ∧ WindowState.Normal ≠ WindowState.Minimized :=
  ⟨_, rfl, rfl, rfl, by decide⟩

theorem lookup_setRecord_state (w : List (ℕ × WindowRecord)) (e : ℕ)
    (f : WindowRecord → WindowRecord) (hf : ∀ rec, (f rec).state = rec.state) (e' : ℕ) :
    ((setRecord w e f).lookup e').map (·.state) = (w.lookup e').map (·.state) := by
  by_cases he : e' = e
  · subst he
    rw [lookup_setRecord_self]
    cases w.lookup e' <;> simp [hf]
  · rw [lookup_setRecord_ne _ _ he]

/-- C4 amended: the translator never recomputes or rewrites the stored
`WindowState`: after handling any backend window event that does not panic,
every record's `state` component is exactly what it was before. -/
theorem handle_window_event_preserves_state (ww : WinitWindows) (wid : ℕ)
    (ev : WindowEvent) (world : AppWorld) (s : WinitPersistentState) (r : HandlerResult)
    (h : handle_window_event ww wid ev world s = .ok r) (e : ℕ) :
    (r.world.records.lookup e).map (·.state) = (world.records.lookup e).map (·.state) := by
  unfold handle_window_event at h
  cases hentity : ww.get_window_entity wid with
  | none =>
    rw [hentity] at h
    injection h with h
    rw [← h]
  | some we =>
    rw [hentity] at h
    cases ev <;>
      ((try simp only [] at h)
       repeat' split at h) <;>
      first
        | exact Except.noConfusion h
        | (injection h with h
           subst h
           first
             | rfl
             | (refine lookup_setRecord_state _ _ _ ?_ e
                intro rec
                rfl)
             | (simp only [apply_ite AppWorld.records, ite_self]
                refine lookup_setRecord_state _ _ _ ?_ e
                intro rec
                rfl))

/-- C4 witness: evaluation of `handle_window_event_preserves_state` on the
concrete fixtures with a `CloseRequested` event. -/
theorem handle_window_event_preserves_state_witness :
    (((⟨⟨[(1, rec800)], { emptyEvents with window_close_requested := [1] }⟩,
        ⟨true, true, false, false, 0⟩, none, []⟩ : HandlerResult).world.records.lookup 1).map
      (·.state)) = (world800.records.lookup 1).map (·.state) :=
  handle_window_event_preserves_state ww800 7 .CloseRequested world800 state0
    ⟨⟨[(1, rec800)], { emptyEvents with window_close_requested := [1] }⟩,
     ⟨true, true, false, false, 0⟩, none, []⟩ rfl 1

/-- Modelled from the spec for the missing `winit_config.rs`: the update-mode
policy ("Continuous, Reactive{max_wait}, ReactiveLowPower{max_wait}"), with
the variants exactly as matched by the runner in bevy_winit/src/lib.rs. The
`max_wait` duration is modelled as rational milliseconds. -/
inductive UpdateMode
  | Continuous
  | Reactive (max_wait : ℚ)
  | ReactiveLowPower (max_wait : ℚ)
  deriving DecidableEq, Repr

/-- Embeds winit's `ControlFlow` values assigned by the runner. -/
inductive ControlFlow
  | Poll
  | WaitUntil (t : ℚ)
  | Wait
  | Exit
  deriving DecidableEq, Repr

/-- Embeds the `NewEvents` arm of the runner: reset `low_power_event`, and set
`timeout_reached` iff winit reports a `ResumeTimeReached` wake or `max_wait`
has elapsed since the last update (for the Reactive modes). -/
def new_events_phase (update_mode : Bool → UpdateMode) (resume_time_reached : Bool)
    (now : ℚ) (focused : Bool) (s : WinitPersistentState) : WinitPersistentState :=
  let auto_timeout_reached := resume_time_reached
  let manual_timeout_reached :=
    match update_mode focused with
    | .Continuous => false
    | .Reactive max_wait | .ReactiveLowPower max_wait =>
      decide (now - s.last_update ≥ max_wait)
  { s with low_power_event := false,
           timeout_reached := auto_timeout_reached || manual_timeout_reached }

/-- Embeds the `MainEventsCleared` arm of the runner: decide whether to run
application logic (always for Continuous/Reactive while active; gated on
`low_power_event`/`redraw_request_sent`/`timeout_reached` for
ReactiveLowPower; never while suspended), and on an update record the time.
Returns the updated state and whether application logic ran. -/
def main_events_cleared_phase (update_mode : Bool → UpdateMode) (now : ℚ)
    (focused : Bool) (s : WinitPersistentState) : WinitPersistentState × Bool :=
  let update :=
    if s.active then
      match update_mode focused with
      | .Continuous | .Reactive _ => true
      | .ReactiveLowPower _ =>
        s.low_power_event || s.redraw_request_sent || s.timeout_reached
    else false
  if update then ({ s with last_update := now }, true) else (s, false)

/-- Embeds the `RedrawEventsCleared` arm of the runner: compute the control
flow for the next cycle from the mode (`Poll`, or `WaitUntil(now + max_wait)`),
override it with `Poll` on a pending `RequestRedraw` and with `Exit` on a
pending `AppExit`, and store the redraw flag only after the deadline
computation. -/
def redraw_events_cleared_phase (update_mode : Bool → UpdateMode) (now : ℚ)
    (focused : Bool) (redraw_requested app_exit : Bool) (s : WinitPersistentState) :
    WinitPersistentState × ControlFlow :=
  let control_flow :=
    match update_mode focused with
    | .Continuous => ControlFlow.Poll
    | .Reactive max_wait | .ReactiveLowPower max_wait =>
      ControlFlow.WaitUntil (now + max_wait)
  let control_flow := if redraw_requested then ControlFlow.Poll else control_flow
  let control_flow := if app_exit then ControlFlow.Exit else control_flow
  ({ s with redraw_request_sent := redraw_requested }, control_flow)

/-- Folds the translator over the window events delivered in one cycle, in
order, threading the world and the persistent state; a panic aborts. -/
def process_window_events (ww : WinitWindows) :
    List (ℕ × WindowEvent) → AppWorld → WinitPersistentState →
    Except String (AppWorld × WinitPersistentState)
  | [], world, s => .ok (world, s)
  | we :: rest, world, s =>
    match handle_window_event ww we.1 we.2 world s with
    | .error msg => .error msg
    | .ok r => process_window_events ww rest r.world r.winit_state

/-- Result of one backend callback cycle. -/
structure CycleResult where
  world : AppWorld
  winit_state : WinitPersistentState
  ran_update : Bool
  control_flow : ControlFlow
  deriving DecidableEq, Repr

/-- One backend callback cycle of the winit runner (bevy_winit/src/lib.rs):
`NewEvents`, the delivered window events (through `handle_window_event`),
`MainEventsCleared` (the application-logic gate; the application update
itself is external to this core and modelled as recording the time), and
`RedrawEventsCleared`. `redraw_requested`/`app_exit` say whether
`RequestRedraw`/`AppExit` events are observed at the end of the cycle;
a single `now` stands for the cycle's time stamps. -/
def run_cycle (update_mode : Bool → UpdateMode) (ww : WinitWindows)
    (resume_time_reached : Bool) (now : ℚ) (events : List (ℕ × WindowEvent))
    (redraw_requested app_exit : Bool) (world : AppWorld)
    (s : WinitPersistentState) : Except String CycleResult :=
  let focused0 := world.records.any fun p => p.2.currently_focused
  let s0 := new_events_phase update_mode resume_time_reached now focused0 s
  match process_window_events ww events world s0 with
  | .error msg => .error msg
  | .ok (world1, s1) =>
    let focused1 := world1.records.any fun p => p.2.currently_focused
    let (s2, ran_update) := main_events_cleared_phase update_mode now focused1 s1
    let (s3, control_flow) :=
      redraw_events_cleared_phase update_mode now focused1 redraw_requested app_exit s2
    .ok ⟨world1, s3, ran_update, control_flow⟩

theorem handle_window_event_state_effect (ww : WinitWindows) (wid : ℕ)
    (ev : WindowEvent) (world : AppWorld) (s : WinitPersistentState) (r : HandlerResult)
    (h : handle_window_event ww wid ev world s = .ok r) :
    r.winit_state = if (ww.get_window_entity wid).isSome
      then { s with low_power_event := true } else s := by
  unfold handle_window_event at h
  cases hentity : ww.get_window_entity wid with
  | none =>
    rw [hentity] at h
    injection h with h
    subst h
    rfl
  | some we =>
    rw [hentity] at h
    cases ev <;>
      ((try simp only [] at h)
       repeat' split at h) <;>
      first
        | exact Except.noConfusion h
        | (injection h with h
           subst h
           rfl)

theorem process_window_events_state (ww : WinitWindows)
    (events : List (ℕ × WindowEvent)) :
    ∀ (world : AppWorld) (s : WinitPersistentState) (world' : AppWorld)
      (s' : WinitPersistentState),
      process_window_events ww events world s = .ok (world', s') →
      s'.active = s.active ∧ s'.redraw_request_sent = s.redraw_request_sent
        ∧ s'.timeout_reached = s.timeout_reached ∧ s'.last_update = s.last_update
        ∧ s'.low_power_event
            = (s.low_power_event
               || events.any fun we => (ww.get_window_entity we.1).isSome) := by
  induction events with
  | nil =>
    intro world s world' s' h
    injection h with h
    injection h with h1 h2
    subst h2
    simp
  | cons we rest ih =>
    intro world s world' s' h
    unfold process_window_events at h
    cases hh : handle_window_event ww we.1 we.2 world s with
    | error msg =>
      rw [hh] at h
      exact Except.noConfusion h
    | ok r =>
      rw [hh] at h
      have hse := handle_window_event_state_effect ww we.1 we.2 world s r hh
      obtain ⟨h1, h2, h3, h4, h5⟩ := ih r.world r.winit_state world' s' h
      cases hk : (ww.get_window_entity we.1).isSome with
      | true =>
        simp only [hk, if_true] at hse
        rw [hse] at h1 h2 h3 h4 h5
        refine ⟨h1, h2, h3, h4, ?_⟩
        rw [h5]
        simp [hk]
      | false =>
        simp only [hk, Bool.false_eq_true, if_false] at hse
        rw [hse] at h1 h2 h3 h4 h5
        refine ⟨h1, h2, h3, h4, ?_⟩
        rw [h5]
        simp [hk]

/-- C6: in ReactiveLowPower mode while the application is active, an
application-logic update runs in a cycle iff a window event for a known
window occurred this cycle, a redraw was explicitly requested (observed at
the end of the previous cycle), or the max_wait timeout elapsed (a backend
`ResumeTimeReached` wake, or `max_wait` elapsed since the last update);
concretely, with no events, no redraw and max_wait = 16, a cycle at time 10
runs no update, the cycle at time 16 runs exactly one update and resets the
gating flags, and a following cycle at time 17 runs no update again. -/
theorem reactive_low_power_gate :
    (∀ (max_wait : ℚ) (ww : WinitWindows) (resume_time_reached : Bool) (now : ℚ)
        (events : List (ℕ × WindowEvent)) (redraw_requested app_exit : Bool)
        (world : AppWorld) (s : WinitPersistentState) (r : CycleResult),
      s.active = true →
      run_cycle (fun _ => .ReactiveLowPower max_wait) ww resume_time_reached now events
        redraw_requested app_exit world s = .ok r →
      (r.ran_update = true ↔
        ((∃ we ∈ events, (ww.get_window_entity we.1).isSome = true)
          ∨ s.redraw_request_sent = true
          ∨ resume_time_reached = true
          ∨ now - s.last_update ≥ max_wait)))
  ∧ run_cycle (fun _ => .ReactiveLowPower 16) ⟨[], [], []⟩ false 10 [] false false
      ⟨[], emptyEvents⟩ ⟨true, false, false, false, 0⟩
      = .ok ⟨⟨[], emptyEvents⟩, ⟨true, false, false, false, 0⟩, false, .WaitUntil 26⟩
  ∧ run_cycle (fun _ => .ReactiveLowPower 16) ⟨[], [], []⟩ false 16 [] false false
      ⟨[], emptyEvents⟩ ⟨true, false, false, false, 0⟩
      = .ok ⟨⟨[], emptyEvents⟩, ⟨true, false, false, true, 16⟩, true, .WaitUntil 32⟩
  ∧ run_cycle (fun _ => .ReactiveLowPower 16) ⟨[], [], []⟩ false 17 [] false false
      ⟨[], emptyEvents⟩ ⟨true, false, false, true, 16⟩
      = .ok ⟨⟨[], emptyEvents⟩, ⟨true, false, false, false, 16⟩, false, .WaitUntil 33⟩ := by
  refine ⟨?_, ?_, ?_, ?_⟩
  · intro max_wait ww resume_time_reached now events redraw_requested app_exit
      world s r hactive hrun
    unfold run_cycle at hrun
    simp only [] at hrun
    cases hp : process_window_events ww events world
        (new_events_phase (fun _ => .ReactiveLowPower max_wait) resume_time_reached now
          (world.records.any fun p => p.2.currently_focused) s) with
    | error msg =>
      rw [hp] at hrun
      exact Except.noConfusion hrun
    | ok ws =>
      obtain ⟨world1, s1⟩ := ws
      rw [hp] at hrun
      obtain ⟨h1, h2, h3, h4, h5⟩ := process_window_events_state ww events _ _ _ _ hp
      simp only [new_events_phase] at h1 h2 h3 h4 h5
      injection hrun with hrun
      rw [← hrun]
      have hr : (main_events_cleared_phase (fun _ => .ReactiveLowPower max_wait) now
            (world1.records.any fun p => p.2.currently_focused) s1).2
          = (s1.low_power_event || s1.redraw_request_sent || s1.timeout_reached) := by
        unfold main_events_cleared_phase
        rw [h1, hactive, if_pos rfl]
        by_cases hb : (s1.low_power_event || s1.redraw_request_sent || s1.timeout_reached)
            = true
        · rw [hb, if_pos rfl]
        · rw [Bool.not_eq_true] at hb
          rw [hb]
          simp
      show (main_events_cleared_phase _ _ _ s1).2 = true ↔ _
      rw [hr, h5, h2, h3]
      simp [List.any_eq_true, Bool.or_eq_true, decide_eq_true_iff, or_assoc]
  · norm_num [run_cycle, new_events_phase, main_events_cleared_phase,
      redraw_events_cleared_phase, process_window_events, emptyEvents]
  · norm_num [run_cycle, new_events_phase, main_events_cleared_phase,
      redraw_events_cleared_phase, process_window_events, emptyEvents]
  · norm_num [run_cycle, new_events_phase, main_events_cleared_phase,
      redraw_events_cleared_phase, process_window_events, emptyEvents]

/-- C6 witness: evaluation of the gate of `reactive_low_power_gate` on a
concrete cycle woken by a backend `ResumeTimeReached` timeout: the
application-logic update runs. -/
theorem reactive_low_power_gate_witness :
    (⟨⟨[], emptyEvents⟩, ⟨true, false, false, true, 0⟩, true, .WaitUntil 16⟩
        : CycleResult).ran_update = true :=
  (reactive_low_power_gate.1 16 ⟨[], [], []⟩ true 0 [] false false ⟨[], emptyEvents⟩
      ⟨true, false, false, false, 0⟩
      ⟨⟨[], emptyEvents⟩, ⟨true, false, false, true, 0⟩, true, .WaitUntil 16⟩
      rfl (by simp [run_cycle, new_events_phase, main_events_cleared_phase,
        redraw_events_cleared_phase, process_window_events, emptyEvents])).mpr
    (Or.inr (Or.inr (Or.inl rfl)))
